import Mathlib

/-!
Verification of the llm-os dispatcher and orchestrator (EvolvingAgentsLabs/llm-os).

Shallow embedding of:
  * `src/llmos/interfaces/dispatcher.py` (Dispatcher branch functions),
  * `src/llmos/interfaces/orchestrator.py` (SystemAgent.orchestrate and helpers),
  * `src/llmos/interfaces/sdk_client.py` (TraceBuilder, execute_learner_mode).

Components of this repository whose sources are not under src/ (TokenEconomy in
kernel/token_economy.py, the trace matcher in memory/traces_sdk.py, StateManager in
kernel/state_manager.py) are modelled from the spec; each such definition carries a
doc comment starting with "Modelled from the spec:".

Python floats are modelled as rationals (Rat): every comparison the claims depend on
is an order comparison between exactly-representable values, which Rat preserves.
The LLM backend is modelled as an explicit outcome parameter (list of streamed
messages, or an exception), and wall-clock time is not modelled.
-/

namespace LLMOS

/-- ExecutionTrace, the persisted memory entity (spec section 3; constructed in
sdk_client.py TraceBuilder.to_trace).  Timestamps are not modelled. -/
structure ExecutionTrace where
  goal_signature : String
  goal_text : String
  success_rating : Rat
  usage_count : Nat
  estimated_cost_usd : Rat
  estimated_time_secs : Rat
  mode : String
  tools_used : Option (List String)
  output_summary : String
  error_notes : String
  crystallized_into_tool : Option String
deriving Repr, DecidableEq

/-- Modelled from the spec: TokenEconomy state (section 4.2; kernel/token_economy.py
is not under src/).  The spend log records every performed deduction. -/
structure TokenEconomy where
  balance : Rat
  spend_log : List (Rat × String)
deriving Repr, DecidableEq

/-- Modelled from the spec: TokenEconomy.check_budget — fails with LOW_BATTERY when
balance is below the requested amount (spec section 4.2); the dispatcher calls it as
check_budget(max_cost_usd) and treats the LowBatteryError as a failed check. -/
def check_budget (te : TokenEconomy) (amount : Rat) : Bool :=
  decide (amount ≤ te.balance)

/-- Modelled from the spec: TokenEconomy.deduct — a deduction that would drive the
balance below zero is rejected with LOW_BATTERY; otherwise the balance is reduced and
the deduction is appended to the spend log (spec sections 3 and 4.2). -/
def deduct (te : TokenEconomy) (amount : Rat) (reason : String) : Except String TokenEconomy :=
  if te.balance - amount < 0 then
    Except.error "LOW_BATTERY"
  else
    Except.ok { balance := te.balance - amount
                spend_log := te.spend_log ++ [(amount, reason)] }

/-- Modelled from the spec: the trace memory seen by the dispatcher
(memory/traces_sdk.py is not under src/).  `sim` is the pluggable similarity
function of the semantic matcher (spec section 4.4), `sigOf` the goal-signature
hash (first 16 hex chars of a content hash; only its exactness matters here). -/
structure TraceStore where
  traces : List ExecutionTrace
  sim : String → String → Rat
  sigOf : String → String

/-- Modelled from the spec: the highest-similarity candidate of the semantic matcher
(spec section 4.4).  Ties keep the earlier-scanned trace; the spec tie-break by
usage statistics is irrelevant to the claims. -/
def pick_best (g : String) (s : TraceStore) : List ExecutionTrace → Option (ExecutionTrace × Rat)
  | [] => none
  | t :: rest =>
    match pick_best g s rest with
    | none => some (t, s.sim g t.goal_text)
    | some (u, cu) =>
      let ct := s.sim g t.goal_text
      if cu < ct then some (t, ct) else some (u, cu)

/-- Modelled from the spec: TraceManager.find_trace_with_llm — return the
highest-scoring trace together with its confidence if that confidence is at least
min_confidence, else nothing (spec section 4.4, semantic path). -/
def find_trace_with_llm (s : TraceStore) (goal : String) (minConf : Rat) :
    Option (ExecutionTrace × Rat) :=
  match pick_best goal s s.traces with
  | none => none
  | some (t, c) => if minConf ≤ c then some (t, c) else none

/-- Modelled from the spec: TraceManager.find_trace, the hash-exact lookup used as
fallback by Dispatcher._dispatch_follower (dispatcher.py line 291, commented
"Fallback to hash matching"; spec section 4.4, exact path: confidence 1.0 when the
signatures coincide, so its min_confidence argument is vacuous). -/
def find_trace (s : TraceStore) (goal : String) : Option ExecutionTrace :=
  s.traces.find? (fun t => t.goal_signature == s.sigOf goal)

/-- Result dictionary returned by the dispatcher branches (dispatcher.py).  The
Python dicts carry branch-dependent keys; absent keys are `none` / defaults. -/
structure DispatchResult where
  success : Bool := false
  mode : String := ""
  cost : Rat := 0
  output : String := ""
  error : Option String := none
  trace : Option ExecutionTrace := none
  tool_name : Option String := none
  guidance_trace : Option ExecutionTrace := none
  confidence : Option Rat := none
  steps_completed : Option Nat := none
  total_steps : Option Nat := none
deriving Repr, DecidableEq

/-- Dispatcher._dispatch_follower (dispatcher.py lines 280-314): LLM match at
min_confidence 0.92, hash-exact fallback, replay via cortex.follow (modelled by the
`followOk` oracle), result with cost 0.  The second component is the trace that was
replayed, if any.  The usage-count update on the replayed trace is not modelled. -/
def _dispatch_follower (store : TraceStore) (goal : String)
    (followOk : ExecutionTrace → Bool) : DispatchResult × Option ExecutionTrace :=
  match find_trace_with_llm store goal (mkRat 92 100) with
  | some (t, _c) =>
    ({ success := followOk t, mode := "FOLLOWER", cost := 0, trace := some t }, some t)
  | none =>
    match find_trace store goal with
    | some t =>
      ({ success := followOk t, mode := "FOLLOWER", cost := 0, trace := some t }, some t)
    | none =>
      ({ success := false, mode := "FOLLOWER",
         error := some "No trace found for Follower mode" }, none)

/-- Dispatcher._dispatch_crystallized (dispatcher.py lines 229-278): LLM match at
min_confidence 0.75; failure unless the matched trace carries a truthy
crystallized_into_tool; on success cost 0 and the tool name is reported.  The
`registry` argument models the component registry: the Python code never consults it
in this branch.  The usage-count update is not modelled. -/
def _dispatch_crystallized (store : TraceStore) (registry : List String)
    (goal : String) : DispatchResult :=
  match find_trace_with_llm store goal (mkRat 75 100) with
  | none =>
    { success := false, mode := "CRYSTALLIZED", error := some "No crystallized trace found" }
  | some (t, _c) =>
    match t.crystallized_into_tool with
    | none =>
      { success := false, mode := "CRYSTALLIZED", error := some "Trace not crystallized" }
    | some toolName =>
      if toolName = "" then
        { success := false, mode := "CRYSTALLIZED", error := some "Trace not crystallized" }
      else
        { success := true, mode := "CRYSTALLIZED", tool_name := some toolName,
          trace := some t, cost := 0 }

/-- String join with a separator, modelling Python str.join. -/
def join_with (sep : String) : List String → String
  | [] => ""
  | [s] => s
  | s :: t :: rest => s ++ sep ++ join_with sep (t :: rest)

/-- Newline join, modelling Python "\n".join. -/
def join_lines (l : List String) : String := join_with "\n" l

/-- SDK stream message, as consumed by TraceBuilder.add_message (sdk_client.py
lines 42-61).  A ResultMessage carries the terminal total_cost_usd and whether a
non-None error attribute is present. -/
inductive Msg where
  | text (t : String)
  | toolUse (name : String)
  | resultMsg (total_cost_usd : Rat) (hasErr : Bool)
deriving Repr, DecidableEq

/-- Outcome of one Claude SDK streaming call, as seen by execute_learner_mode:
either the stream completes after the given messages, or an exception is raised
after the given prefix of messages was processed. -/
inductive SDKOutcome where
  | completes (msgs : List Msg)
  | raises (msgs : List Msg) (err : String)
deriving Repr, DecidableEq

/-- TraceBuilder state (sdk_client.py lines 24-66).  Wall-clock timestamps are not
modelled, so estimated execution time is 0. -/
structure TraceBuilder where
  goal : String
  tools_used : List String
  output_parts : List String
  error_notes : List String
  cost_usd : Rat
  success : Bool
deriving Repr, DecidableEq

/-- TraceBuilder.__init__ (sdk_client.py lines 32-40). -/
def TraceBuilder.init (goal : String) : TraceBuilder :=
  { goal := goal, tools_used := [], output_parts := [], error_notes := [],
    cost_usd := 0, success := true }

/-- TraceBuilder.add_message (sdk_client.py lines 42-61): text blocks append to
output_parts, tool-use blocks append a de-duplicated tool name, and a ResultMessage
records the terminal cost and success flag. -/
def TraceBuilder.add_message (b : TraceBuilder) (m : Msg) : TraceBuilder :=
  match m with
  | .text t => { b with output_parts := b.output_parts ++ [t] }
  | .toolUse n =>
    if n ∈ b.tools_used then b else { b with tools_used := b.tools_used ++ [n] }
  | .resultMsg c hasErr => { b with cost_usd := c, success := !hasErr }

/-- TraceBuilder.add_error (sdk_client.py lines 63-66). -/
def TraceBuilder.add_error (b : TraceBuilder) (e : String) : TraceBuilder :=
  { b with error_notes := b.error_notes ++ [e], success := false }

/-- TraceBuilder.to_trace (sdk_client.py lines 68-88): success_rating 1.0 on
success, 0.5 otherwise; usage_count 1; tools_used None when empty; output summary
joins the first five output parts. -/
def TraceBuilder.to_trace (b : TraceBuilder) (goal_signature : String) : ExecutionTrace :=
  { goal_signature := goal_signature
    goal_text := b.goal
    success_rating := if b.success then 1 else mkRat 1 2
    usage_count := 1
    estimated_cost_usd := b.cost_usd
    estimated_time_secs := 0
    mode := "LEARNER"
    tools_used := if b.tools_used = [] then none else some b.tools_used
    output_summary := if b.output_parts = [] then "" else join_lines (b.output_parts.take 5)
    error_notes := if b.error_notes = [] then "" else join_lines b.error_notes
    crystallized_into_tool := none }

/-- Initial result dict of execute_learner_mode (sdk_client.py lines 191-197). -/
def learner_res0 : DispatchResult :=
  { success := false, mode := "LEARNER", cost := 0, output := "" }

/-- Message loop of execute_learner_mode (sdk_client.py lines 206-215): every
message feeds the TraceBuilder; each ResultMessage overwrites the cost field of
the result dict and sets success to True. -/
def processMsgs : TraceBuilder → DispatchResult → List Msg → TraceBuilder × DispatchResult
  | b, res, [] => (b, res)
  | b, res, m :: rest =>
    processMsgs (b.add_message m)
      (match m with
       | .resultMsg c _ => { res with cost := c, success := true }
       | _ => res) rest

/-- LLMOSSDKClient.execute_learner_mode (sdk_client.py lines 158-237).  The SDK
stream is given as an explicit outcome; `hasTM` records whether a trace manager was
supplied.  Returns the result dict and the list of traces persisted to the store.
On exception the error is noted on the builder, the error key is set, and the
(unsuccessful) trace is still built and saved. -/
def execute_learner_mode (goal goalSig : String) (hasTM : Bool)
    (outcome : SDKOutcome) : DispatchResult × List ExecutionTrace :=
  match outcome with
  | .completes msgs =>
    let pr := processMsgs (TraceBuilder.init goal) learner_res0 msgs
    let tr := pr.1.to_trace goalSig
    ({ pr.2 with trace := some tr, output := tr.output_summary },
     if hasTM then [tr] else [])
  | .raises msgs err =>
    let pr := processMsgs (TraceBuilder.init goal) learner_res0 msgs
    let tr := (pr.1.add_error err).to_trace goalSig
    ({ pr.2 with error := some err, trace := some tr },
     if hasTM then [tr] else [])

/-- ExecutionStep of the orchestration plan (spec section 3; constructed in
orchestrator.py _decompose_goal and mutated through StateManager). -/
structure ExecutionStep where
  step_number : Nat
  description : String
  agent : String
  status : String
  result : Option String := none
  error : Option String := none
deriving Repr, DecidableEq

/-- Modelled from the spec: StateManager.update_step_status (kernel/state_manager.py
is not under src/; spec section 4.6 update_step) — set the status of the step with
the given number, recording result/error when supplied. -/
def update_step_status (plan : List ExecutionStep) (n : Nat) (status : String)
    (result : Option String) (error : Option String) : List ExecutionStep :=
  plan.map (fun s =>
    if s.step_number = n then
      { s with status := status
               result := result.orElse (fun _ => s.result)
               error := error.orElse (fun _ => s.error) }
    else s)

/-- Execution summary of a run (spec section 4.6 summary; orchestrator.py reads the
keys total_steps and completed_steps of StateManager.get_execution_summary). -/
structure ExecSummary where
  total_steps : Nat
  completed_steps : Nat
  failed_steps : Nat
deriving Repr, DecidableEq

/-- Modelled from the spec: StateManager.get_execution_summary (kernel/
state_manager.py is not under src/; spec section 4.6) — step counts by status. -/
def get_execution_summary (plan : List ExecutionStep) : ExecSummary :=
  { total_steps := plan.length
    completed_steps := (plan.filter (fun s => s.status == "completed")).length
    failed_steps := (plan.filter (fun s => s.status == "failed")).length }

/-- Outcome of delegating one step (orchestrator.py _execute_step /
_delegate_to_agent): a success with output and cost, a caught failure with an error
message, or an exception that escapes the step loop (e.g. the RuntimeError raised
when the SDK is missing, or a StateManager fault). -/
inductive StepOutcome where
  | ok (output : String) (cost : Rat)
  | fail (err : String)
  | exn (msg : String)
deriving Repr, DecidableEq

/-- Accumulated observable state of the orchestration step loop: the step records,
the logged event types, the accumulated cost, and the numbers of the steps that
were actually delegated (in order). -/
structure LoopOut where
  steps : List ExecutionStep
  events : List String
  total_cost : Rat
  delegated : List Nat
deriving Repr, DecidableEq

/-- Step-execution loop of SystemAgent.orchestrate (orchestrator.py lines 164-193):
for each plan step, mark it in_progress, then break after logging BUDGET_EXCEEDED
if the accumulated cost has reached max_cost_usd, else delegate; a successful step
is marked completed and its cost accumulated, a failed one marked failed, and a
delegation exception propagates (Except.error). -/
def exec_steps (outcomes : Nat → StepOutcome) (maxCost : Rat) :
    List ExecutionStep → List ExecutionStep → List String → Rat → List Nat →
    Except String LoopOut
  | [], st, ev, tc, dl => Except.ok { steps := st, events := ev, total_cost := tc, delegated := dl }
  | step :: rest, st, ev, tc, dl =>
    let st1 := update_step_status st step.step_number "in_progress" none none
    if maxCost ≤ tc then
      Except.ok { steps := st1, events := ev ++ ["BUDGET_EXCEEDED"], total_cost := tc,
                  delegated := dl }
    else
      match outcomes step.step_number with
      | .exn msg => Except.error msg
      | .ok out c =>
        exec_steps outcomes maxCost rest
          (update_step_status st1 step.step_number "completed" (some out) none)
          ev (tc + c) (dl ++ [step.step_number])
      | .fail err =>
        exec_steps outcomes maxCost rest
          (update_step_status st1 step.step_number "failed" none (some err))
          ev tc (dl ++ [step.step_number])

/-- OrchestrationResult (orchestrator.py lines 28-37).  The Python `output` field
holds the execution summary on success and str(e) on failure; here the summary is
`state_summary` and the exception text is `error`.  Execution time is not
modelled. -/
structure OrchestrationResult where
  success : Bool
  steps_completed : Nat
  total_steps : Nat
  cost_usd : Rat
  state_summary : Option ExecSummary
  error : Option String
deriving Repr, DecidableEq

/-- SystemAgent.orchestrate, step-execution and result-construction phases
(orchestrator.py lines 164-232), for a run whose plan has already been decomposed.
On a clean loop the result is success := True with the summary counts and the
accumulated cost; when an exception escapes the loop, the except branch returns
success := False with steps_completed 0, cost_usd 0.0 and an empty state summary,
and total_steps = len(plan). -/
def orchestrate (plan : List ExecutionStep) (outcomes : Nat → StepOutcome)
    (maxCost : Rat) : OrchestrationResult :=
  match exec_steps outcomes maxCost plan plan [] 0 [] with
  | Except.ok lo =>
    let summ := get_execution_summary lo.steps
    { success := true, steps_completed := summ.completed_steps,
      total_steps := summ.total_steps, cost_usd := lo.total_cost,
      state_summary := some summ, error := none }
  | Except.error msg =>
    { success := false, steps_completed := 0, total_steps := plan.length,
      cost_usd := 0, state_summary := none, error := some msg }

/-- Raw step data parsed from the planning response JSON (orchestrator.py lines
354-363): the number and description keys are required, agent defaults to
system-agent via .get. -/
structure StepData where
  number : Nat
  description : String
  agent : Option String
deriving Repr, DecidableEq

/-- Parsed planning response (orchestrator.py lines 333-356): a JSON object that
may or may not contain a "steps" array. -/
structure PlanJson where
  steps : Option (List StepData)
deriving Repr, DecidableEq

/-- Plan construction of SystemAgent._decompose_goal (orchestrator.py lines
354-376): convert the parsed steps to pending ExecutionSteps; when no plan was
parsed or it yields zero steps, fall back to the single-step plan delegating the
original goal to system-agent. -/
def _decompose_goal_steps (goal : String) (plan_json : Option PlanJson) :
    List ExecutionStep :=
  let steps : List ExecutionStep :=
    match plan_json with
    | some pj =>
      match pj.steps with
      | some sds =>
        sds.map (fun sd =>
          { step_number := sd.number, description := sd.description,
            agent := sd.agent.getD "system-agent", status := "pending" })
      | none => []
    | none => []
  match steps with
  | [] =>
    [{ step_number := 1, description := goal, agent := "system-agent",
       status := "pending" }]
  | s :: rest => s :: rest

/-- Observable outcome of a paid dispatcher branch: the returned result dict, the
token economy after the branch, and whether the paid execution was actually
started.  The Except layer carries an uncaught exception (a LowBatteryError raised
by deduct would propagate out of dispatch). -/
structure BranchOut where
  result : DispatchResult
  economy : TokenEconomy
  paid_call : Bool
deriving Repr, DecidableEq

/-- Dispatcher._dispatch_learner, SDK-client arm (dispatcher.py lines 425-480):
the budget check runs first and returns a structured LEARNER failure on
LowBatteryError (lines 441-449).  Past the check, the call at lines 465-471
passes the keyword argument available_agents=, which execute_learner_mode
(sdk_client.py lines 158-165) does not accept: the call raises TypeError before
any SDK work starts, so the stream is never consumed and the deduction at lines
473-479 is never reached.  The parameters after te and maxCost are deliberately
kept (and deliberately unused past the check) to mirror the call shape of the
source, where they would feed execute_learner_mode only beyond the defective
call; the reachable SDK-less arm is modelled by _dispatch_learner_fallback. -/
def _dispatch_learner (store : TraceStore) (te : TokenEconomy) (maxCost : Rat)
    (goal : String) (hasTM : Bool) (outcome : SDKOutcome) : Except String BranchOut :=
  if check_budget te maxCost = false then
    Except.ok { result := { success := false, mode := "LEARNER", error := some "LOW_BATTERY" },
                economy := te, paid_call := false }
  else
    Except.error "TypeError: execute_learner_mode() got an unexpected keyword argument available_agents"

/-- Few-shot guidance prompt of Dispatcher._dispatch_mixed (dispatcher.py lines
359-376).  The percent formatting of the success rate is elided (no claim inspects
the prompt text). -/
def mixed_few_shot (t : ExecutionTrace) (goal : String) : String :=
  "# Similar Task Example\n\nI have executed a similar task before. Here is what I did:\n\n" ++
  "**Previous Goal:** " ++ t.goal_text ++ "\n" ++
  "**Tools Used:** " ++
  (match t.tools_used with
   | some l => if l = [] then "N/A" else join_with ", " l
   | none => "N/A") ++ "\n\n" ++
  "**Output Summary:**\n" ++
  (if t.output_summary = "" then "No summary available" else t.output_summary) ++
  "\n\n---\n\n**Current Goal (may differ slightly):** " ++ goal ++
  "\n\nUse the above as guidance, but adapt as needed for the current goal.\n"

/-- Dispatcher._dispatch_mixed, SDK-client arm (dispatcher.py lines 316-399):
trace lookup at min_confidence 0.75; with no trace it warns and falls back to
_dispatch_learner (line 335); otherwise budget check (structured MIXED failure on
LowBatteryError), SDK execution on the few-shot prompt with the signature of
the original goal, deduction of the reported cost only on success, and the mode,
guidance_trace and confidence keys set on the returned dict.  Unlike the LEARNER
arm, the execute_learner_mode call here (lines 382-387) passes only accepted
keywords, so it is modelled as executing; the SDK-less arm is modelled by
_dispatch_mixed_fallback. -/
def _dispatch_mixed (store : TraceStore) (te : TokenEconomy) (maxCost : Rat)
    (goal : String) (hasTM : Bool) (outcome : SDKOutcome) : Except String BranchOut :=
  match find_trace_with_llm store goal (mkRat 75 100) with
  | none => _dispatch_learner store te maxCost goal hasTM outcome
  | some (t, conf) =>
    if check_budget te maxCost = false then
      Except.ok { result := { success := false, mode := "MIXED", error := some "LOW_BATTERY" },
                  economy := te, paid_call := false }
    else
      let pr := execute_learner_mode (mixed_few_shot t goal) (store.sigOf goal) hasTM outcome
      let res := { pr.1 with mode := "MIXED", guidance_trace := some t,
                             confidence := some conf }
      if pr.1.success then
        match deduct te pr.1.cost ("Mixed: " ++ goal.take 50 ++ "...") with
        | Except.error e => Except.error e
        | Except.ok te2 => Except.ok { result := res, economy := te2, paid_call := true }
      else
        Except.ok { result := res, economy := te, paid_call := true }

/-- Dispatcher._dispatch_orchestrator (dispatcher.py lines 505-550): budget check
(structured ORCHESTRATOR failure on LowBatteryError), then orchestration; the
reported cost_usd is deducted only when the orchestration result is successful,
and the OrchestrationResult fields are copied into the returned dict. -/
def _dispatch_orchestrator (te : TokenEconomy) (maxCost : Rat) (goal : String)
    (plan : List ExecutionStep) (outcomes : Nat → StepOutcome) : Except String BranchOut :=
  if check_budget te maxCost = false then
    Except.ok { result := { success := false, mode := "ORCHESTRATOR", error := some "LOW_BATTERY" },
                economy := te, paid_call := false }
  else
    let r := orchestrate plan outcomes maxCost
    let res : DispatchResult :=
      { success := r.success, mode := "ORCHESTRATOR", cost := r.cost_usd,
        steps_completed := some r.steps_completed, total_steps := some r.total_steps,
        error := r.error }
    if r.success then
      match deduct te r.cost_usd ("Orchestrator: " ++ goal.take 50 ++ "...") with
      | Except.error e => Except.error e
      | Except.ok te2 => Except.ok { result := res, economy := te2, paid_call := true }
    else
      Except.ok { result := res, economy := te, paid_call := true }

/-- Outcome of a cortex.learn call in the SDK-less fallback arms: either a newly
learned trace is returned, or an exception is raised; nothing in dispatcher.py
catches such an exception, so it propagates out of the dispatch. -/
inductive CortexOutcome where
  | learned (tr : ExecutionTrace)
  | raises (msg : String)
deriving Repr, DecidableEq

/-- Dispatcher._dispatch_learner, cortex fallback arm (dispatcher.py lines
437-449 and 482-503), taken when self.sdk_client is None.  This is the arm that
is reachable in the assembled program: when the SDK package is importable, the
dispatcher constructs LLMOSSDKClient with the token_economy= and memory_query=
keywords (dispatcher.py lines 91-96), which __init__ rejects because it accepts
only workspace and trace_manager (sdk_client.py lines 103-107).  After the
common budget check, cortex.learn runs, the new trace is saved, and the fixed
estimate of 0.50 USD is deducted unconditionally — the actual_cost variable is
set to the estimate (line 495), not to an adapter-reported cost — before
returning success = True. -/
def _dispatch_learner_fallback (te : TokenEconomy) (maxCost : Rat) (goal : String)
    (cortex : CortexOutcome) : Except String BranchOut :=
  if check_budget te maxCost = false then
    Except.ok { result := { success := false, mode := "LEARNER", error := some "LOW_BATTERY" },
                economy := te, paid_call := false }
  else
    match cortex with
    | .raises msg => Except.error msg
    | .learned tr =>
      match deduct te (mkRat 1 2) ("Learner: " ++ goal.take 50 ++ "...") with
      | Except.error e => Except.error e
      | Except.ok te2 =>
        Except.ok { result := { success := true, mode := "LEARNER", trace := some tr,
                                cost := mkRat 1 2 },
                    economy := te2, paid_call := true }

/-- Dispatcher._dispatch_mixed, cortex fallback arm (dispatcher.py lines 330-352
and 401-423), taken when self.sdk_client is None: trace lookup at 0.75 (falling
back to the LEARNER fallback when none is found, line 335), budget check, then
cortex.learn guided by the trace; the fixed estimate of 0.25 USD is deducted
unconditionally (line 414) and the result is always success = True with the
guidance trace and confidence attached. -/
def _dispatch_mixed_fallback (store : TraceStore) (te : TokenEconomy) (maxCost : Rat)
    (goal : String) (cortex : CortexOutcome) : Except String BranchOut :=
  match find_trace_with_llm store goal (mkRat 75 100) with
  | none => _dispatch_learner_fallback te maxCost goal cortex
  | some (t, conf) =>
    if check_budget te maxCost = false then
      Except.ok { result := { success := false, mode := "MIXED", error := some "LOW_BATTERY" },
                  economy := te, paid_call := false }
    else
      match cortex with
      | .raises msg => Except.error msg
      | .learned tr =>
        match deduct te (mkRat 1 4) ("Mixed: " ++ goal.take 50 ++ "...") with
        | Except.error e => Except.error e
        | Except.ok te2 =>
          Except.ok { result := { success := true, mode := "MIXED", trace := some tr,
                                  guidance_trace := some t, confidence := some conf,
                                  cost := mkRat 1 4 },
                      economy := te2, paid_call := true }

/-- Decidable equality for Except values, used to evaluate the embedded functions
on concrete inputs. -/
instance {ε α : Type} [DecidableEq ε] [DecidableEq α] : DecidableEq (Except ε α) := fun a b =>
  match a, b with
  | Except.ok x, Except.ok y =>
    if h : x = y then Decidable.isTrue (by rw [h])
    else Decidable.isFalse (fun hc => h (by injection hc))
  | Except.error x, Except.error y =>
    if h : x = y then Decidable.isTrue (by rw [h])
    else Decidable.isFalse (fun hc => h (by injection hc))
  | Except.ok _, Except.error _ => Decidable.isFalse (fun hc => by injection hc)
  | Except.error _, Except.ok _ => Decidable.isFalse (fun hc => by injection hc)

/-- Discriminator for the Except layer: true when no exception escaped. -/
def except_ok {ε α : Type} : Except ε α → Bool
  | Except.ok _ => true
  | Except.error _ => false

/-- Concrete trace fixture: a stored trace for goal text "goal A". -/
def tA : ExecutionTrace :=
  ⟨"sigA", "goal A", 1, 1, 0, 0, "LEARNER", none, "", "", none⟩

/-- Concrete trace fixture: a crystallized trace whose generated tool is named
is_prime (the seed-suite example of spec section 8). -/
def tC : ExecutionTrace :=
  { tA with goal_signature := "sigC", crystallized_into_tool := some "is_prime" }

/-- Concrete store fixture: empty trace memory. -/
def storeE : TraceStore := ⟨[], fun _ _ => 0, fun g => g⟩

/-- Concrete store fixture: one trace, matched with similarity 1. -/
def storeW : TraceStore := ⟨[tA], fun _ _ => 1, fun g => g⟩

/-- Concrete store fixture: one crystallized trace, matched with similarity 1. -/
def storeC : TraceStore := ⟨[tC], fun _ _ => 1, fun g => g⟩

/-- Concrete economy fixture: balance 1 USD, empty spend log. -/
def te1 : TokenEconomy := ⟨1, []⟩

/-- Concrete economy fixture: exhausted balance. -/
def teZ : TokenEconomy := ⟨0, []⟩

/-- Concrete plan fixture: a single pending step. -/
def planA : List ExecutionStep :=
  [⟨1, "s1", "system-agent", "pending", none, none⟩]

/-- Concrete outcome fixture: every delegation fails (caught per-step error). -/
def outA : Nat → StepOutcome := fun _ => .fail "boom"

/-- Concrete plan fixture: two pending steps. -/
def planB : List ExecutionStep :=
  [⟨1, "a", "system-agent", "pending", none, none⟩,
   ⟨2, "b", "system-agent", "pending", none, none⟩]

/-- Concrete outcome fixture: step 1 succeeds at cost 0.3, step 2 raises. -/
def outB : Nat → StepOutcome :=
  fun n => if n = 1 then .ok "done" (mkRat 3 10) else .exn "crash"

/-- Concrete outcome fixture: every step succeeds at cost 1. -/
def outB2 : Nat → StepOutcome :=
  fun n => if n = 1 then .ok "done" 1 else .ok "done2" 1

theorem pick_best_sim (g : String) (s : TraceStore) :
    ∀ (l : List ExecutionTrace) (t : ExecutionTrace) (c : Rat),
      pick_best g s l = some (t, c) → c = s.sim g t.goal_text := by
  intro l
  induction l with
  | nil => intro t c h; simp [pick_best] at h
  | cons a rest ih =>
    intro t c h
    simp only [pick_best] at h
    cases hr : pick_best g s rest with
    | none =>
      rw [hr] at h
      simp only [Option.some.injEq, Prod.mk.injEq] at h
      obtain ⟨rfl, rfl⟩ := h
      rfl
    | some p =>
      obtain ⟨u, cu⟩ := p
      rw [hr] at h
      dsimp only at h
      by_cases hc : cu < s.sim g a.goal_text
      · rw [if_pos hc] at h
        simp only [Option.some.injEq, Prod.mk.injEq] at h
        obtain ⟨rfl, rfl⟩ := h
        rfl
      · rw [if_neg hc] at h
        simp only [Option.some.injEq, Prod.mk.injEq] at h
        obtain ⟨rfl, rfl⟩ := h
        exact ih u cu hr

theorem find_trace_with_llm_conf (s : TraceStore) (goal : String) (m : Rat)
    (t : ExecutionTrace) (c : Rat) (h : find_trace_with_llm s goal m = some (t, c)) :
    m ≤ c ∧ c = s.sim goal t.goal_text := by
  unfold find_trace_with_llm at h
  cases hp : pick_best goal s s.traces with
  | none => rw [hp] at h; cases h
  | some p =>
    obtain ⟨t0, c0⟩ := p
    rw [hp] at h
    dsimp only at h
    by_cases hm : m ≤ c0
    · rw [if_pos hm] at h
      simp only [Option.some.injEq, Prod.mk.injEq] at h
      obtain ⟨rfl, rfl⟩ := h
      exact ⟨hm, pick_best_sim goal s s.traces _ _ hp⟩
    · rw [if_neg hm] at h
      cases h

theorem find_trace_sig (s : TraceStore) (goal : String) (t : ExecutionTrace)
    (h : find_trace s goal = some t) : t.goal_signature = s.sigOf goal := by
  unfold find_trace at h
  have hp := List.find?_some h
  simpa using hp

theorem processMsgs_error_notes :
    ∀ (msgs : List Msg) (b : TraceBuilder) (res : DispatchResult),
      ((processMsgs b res msgs).1).error_notes = b.error_notes := by
  intro msgs
  induction msgs with
  | nil => intro b res; rfl
  | cons m rest ih =>
    intro b res
    cases m with
    | text t =>
      simp only [processMsgs]
      rw [ih]
      rfl
    | toolUse n =>
      simp only [processMsgs]
      rw [ih]
      simp only [TraceBuilder.add_message]
      split <;> rfl
    | resultMsg c he =>
      simp only [processMsgs]
      rw [ih]
      rfl

/-- C1 counterexample: a one-step plan whose only step fails (no exception).  The
code returns success := true while the summary records 0 completed of 1 steps,
refuting "success is true iff every step completed / a failed step gives
success = false". -/
theorem c1_counterexample :
    (orchestrate planA outA 5).success = true ∧
    (orchestrate planA outA 5).state_summary =
      some { total_steps := 1, completed_steps := 0, failed_steps := 1 } := by
  decide

/-- C1 (amended): for every orchestration run, the success field of the returned
OrchestrationResult is true iff no exception escaped the step-execution phase;
step failures do not influence it (orchestrator.py lines 195-232 set success=True
unconditionally on the non-exception path). -/
theorem c1_success_iff_no_exception (plan : List ExecutionStep)
    (outcomes : Nat → StepOutcome) (maxCost : Rat) :
    (orchestrate plan outcomes maxCost).success =
      except_ok (exec_steps outcomes maxCost plan plan [] 0 []) := by
  cases h : exec_steps outcomes maxCost plan plan [] 0 [] with
  | ok lo => simp [orchestrate, except_ok, h]
  | error msg => simp [orchestrate, except_ok, h]

/-- C6 counterexample: a two-step plan with max_cost_usd = 1 where step 1 completes
at cost 1.  The loop marks step 2 in_progress, logs BUDGET_EXCEEDED and breaks:
step 2 is left with status in_progress — not failed — refuting "every remaining
step is marked with status failed and reason BUDGET_EXCEEDED". -/
theorem c6_counterexample :
    exec_steps outB2 1 planB planB [] 0 [] =
      Except.ok { steps := [⟨1, "a", "system-agent", "completed", some "done", none⟩,
                            ⟨2, "b", "system-agent", "in_progress", none, none⟩],
                  events := ["BUDGET_EXCEEDED"], total_cost := 1, delegated := [1] } := by
  with_unfolding_all rfl

/-- C6 (amended): the budget is re-checked at the top of each loop iteration; once
the accumulated cost reaches max_cost_usd the loop logs a BUDGET_EXCEEDED event and
halts — no further step is delegated — but the remaining steps keep their previous
status (the current one stays in_progress, later ones pending); they are not marked
failed. -/
theorem c6_budget_halt (outcomes : Nat → StepOutcome) (maxCost tc : Rat)
    (step : ExecutionStep) (rest st : List ExecutionStep)
    (ev : List String) (dl : List Nat) (h : maxCost ≤ tc) :
    exec_steps outcomes maxCost (step :: rest) st ev tc dl =
      Except.ok { steps := update_step_status st step.step_number "in_progress" none none,
                  events := ev ++ ["BUDGET_EXCEEDED"], total_cost := tc, delegated := dl } := by
  simp [exec_steps, h]

theorem c6_budget_halt_witness :
    ((1:Rat) ≤ 1) ∧
    exec_steps outB2 1 [⟨2, "b", "system-agent", "pending", none, none⟩] planB [] 1 [1] =
      Except.ok { steps := update_step_status planB 2 "in_progress" none none,
                  events := ["BUDGET_EXCEEDED"], total_cost := 1, delegated := [1] } := by
  have h : (1:Rat) ≤ 1 := by decide
  exact ⟨h, c6_budget_halt outB2 1 1 ⟨2, "b", "system-agent", "pending", none, none⟩ [] planB [] [1] h⟩

/-- C7: when no plan was parsed from the planning response (no JSON object, no
"steps" key, or an empty steps array), _decompose_goal falls back to the
single-step plan delegating the original goal to system-agent with status
pending. -/
theorem c7_fallback_plan (goal : String) (pj : Option PlanJson)
    (h : pj = none ∨ pj = some ⟨none⟩ ∨ pj = some ⟨some []⟩) :
    _decompose_goal_steps goal pj =
      [{ step_number := 1, description := goal, agent := "system-agent",
         status := "pending" }] := by
  rcases h with h | h | h <;> subst h <;> rfl

theorem c7_fallback_plan_witness :
    ((none : Option PlanJson) = none ∨ (none : Option PlanJson) = some ⟨none⟩ ∨
      (none : Option PlanJson) = some ⟨some []⟩) ∧
    _decompose_goal_steps "write a poem" none =
      [{ step_number := 1, description := "write a poem", agent := "system-agent",
         status := "pending" }] :=
  ⟨Or.inl rfl, c7_fallback_plan "write a poem" none (Or.inl rfl)⟩

/-- C8: for every LEARNER-mode execution whose SDK call raises an exception, the
error note is recorded on the built trace, the trace is rated 0.5 (unsuccessful),
and it is still persisted to the trace store (sdk_client.py lines 226-237). -/
theorem c8_adapter_error_trace (goal sig : String) (msgs : List Msg) (err : String) :
    ∃ tr : ExecutionTrace,
      (execute_learner_mode goal sig true (.raises msgs err)).1.trace = some tr ∧
      (execute_learner_mode goal sig true (.raises msgs err)).2 = [tr] ∧
      tr.success_rating = mkRat 1 2 ∧
      tr.error_notes = err := by
  refine ⟨((processMsgs (TraceBuilder.init goal) learner_res0 msgs).1.add_error err).to_trace sig,
    ?_, ?_, ?_, ?_⟩
  · simp [execute_learner_mode]
  · simp [execute_learner_mode]
  · simp [TraceBuilder.to_trace, TraceBuilder.add_error]
  · have hE : ((processMsgs (TraceBuilder.init goal) learner_res0 msgs).1).error_notes = [] := by
      rw [processMsgs_error_notes]
      rfl
    simp [TraceBuilder.to_trace, TraceBuilder.add_error, hE, join_lines, join_with]

/-- C10: when an exception escapes the step-execution phase, the except branch of
orchestrate reports steps_completed = 0, cost_usd = 0.0 and an empty state summary,
whatever progress had been made before the exception (orchestrator.py lines
218-232). -/
theorem c10_exception_zeroes (plan : List ExecutionStep) (outcomes : Nat → StepOutcome)
    (maxCost : Rat) (msg : String)
    (h : exec_steps outcomes maxCost plan plan [] 0 [] = Except.error msg) :
    orchestrate plan outcomes maxCost =
      { success := false, steps_completed := 0, total_steps := plan.length,
        cost_usd := 0, state_summary := none, error := some msg } := by
  unfold orchestrate
  rw [h]

theorem c10_exception_zeroes_witness :
    exec_steps outB 5 planB planB [] 0 [] = Except.error "crash" ∧
    orchestrate planB outB 5 =
      { success := false, steps_completed := 0, total_steps := 2,
        cost_usd := 0, state_summary := none, error := some "crash" } := by
  have h : exec_steps outB 5 planB planB [] 0 [] = Except.error "crash" := by
    with_unfolding_all rfl
  exact ⟨h, c10_exception_zeroes planB outB 5 "crash" h⟩

/-- C3: a FOLLOWER dispatch replays a trace only when it was returned by the
semantic matcher at min_confidence 0.92 (so its confidence is at least 0.92) or
when it is the hash-exact signature match found by the fallback. -/
theorem c3_follower_replay_guard (store : TraceStore) (goal : String)
    (followOk : ExecutionTrace → Bool) (t : ExecutionTrace)
    (h : (_dispatch_follower store goal followOk).2 = some t) :
    mkRat 92 100 ≤ store.sim goal t.goal_text ∨ t.goal_signature = store.sigOf goal := by
  unfold _dispatch_follower at h
  cases hf : find_trace_with_llm store goal (mkRat 92 100) with
  | some p =>
    obtain ⟨t0, c0⟩ := p
    rw [hf] at h
    simp only [Option.some.injEq] at h
    subst h
    obtain ⟨h1, h2⟩ := find_trace_with_llm_conf store goal _ t0 c0 hf
    exact Or.inl (h2 ▸ h1)
  | none =>
    rw [hf] at h
    cases hg : find_trace store goal with
    | some t1 =>
      rw [hg] at h
      simp only [Option.some.injEq] at h
      subst h
      exact Or.inr (find_trace_sig store goal t1 hg)
    | none =>
      rw [hg] at h
      cases h

theorem c3_follower_replay_guard_witness :
    (_dispatch_follower storeW "g" (fun _ => true)).2 = some tA ∧
    (mkRat 92 100 ≤ storeW.sim "g" tA.goal_text ∨ tA.goal_signature = storeW.sigOf "g") := by
  have h : (_dispatch_follower storeW "g" (fun _ => true)).2 = some tA := by decide
  exact ⟨h, c3_follower_replay_guard storeW "g" (fun _ => true) tA h⟩

/-- C4 counterexample: FOLLOWER dispatch against an empty trace memory.  The claim
says the dispatcher downgrades to a MIXED or LEARNER execution rather than simply
returning a failure; the code returns a plain FOLLOWER failure result (dispatcher.py
lines 292-297) and never executes another branch. -/
theorem c4_counterexample :
    (_dispatch_follower storeE "g" (fun _ => true)).1.success = false ∧
    (_dispatch_follower storeE "g" (fun _ => true)).1.error =
      some "No trace found for Follower mode" ∧
    (_dispatch_follower storeE "g" (fun _ => true)).1.mode = "FOLLOWER" ∧
    (_dispatch_follower storeE "g" (fun _ => true)).1.mode ≠ "MIXED" ∧
    (_dispatch_follower storeE "g" (fun _ => true)).1.mode ≠ "LEARNER" := by
  decide

/-- C4 (amended): when neither the 0.92-confidence semantic match nor the
hash-exact fallback finds a trace, the FOLLOWER dispatch returns the structured
failure result with success = false, mode FOLLOWER and error "No trace found for
Follower mode"; no downgrade to MIXED or LEARNER happens and nothing is
replayed. -/
theorem c4_no_trace_failure (store : TraceStore) (goal : String)
    (followOk : ExecutionTrace → Bool)
    (h1 : find_trace_with_llm store goal (mkRat 92 100) = none)
    (h2 : find_trace store goal = none) :
    _dispatch_follower store goal followOk =
      ({ success := false, mode := "FOLLOWER",
         error := some "No trace found for Follower mode" }, none) := by
  unfold _dispatch_follower
  rw [h1, h2]

theorem c4_no_trace_failure_witness :
    find_trace_with_llm storeE "g" (mkRat 92 100) = none ∧
    find_trace storeE "g" = none ∧
    _dispatch_follower storeE "g" (fun _ => true) =
      ({ success := false, mode := "FOLLOWER",
         error := some "No trace found for Follower mode" }, none) := by
  have h1 : find_trace_with_llm storeE "g" (mkRat 92 100) = none := by decide
  have h2 : find_trace storeE "g" = none := by decide
  exact ⟨h1, h2, c4_no_trace_failure storeE "g" (fun _ => true) h1 h2⟩

/-- Deduction discipline of a paid dispatcher branch: whenever the branch returns a
structured result, the spend log of the token economy has grown by exactly one entry —
carrying the actual cost reported in the result — iff the result is successful;
on a failed paid call the economy is returned unchanged (no deduct call). -/
def deduct_matches_success (te : TokenEconomy) (x : Except String BranchOut) : Prop :=
  ∀ bo : BranchOut, x = Except.ok bo →
    (bo.result.success = true →
      ∃ reason, bo.economy.spend_log = te.spend_log ++ [(bo.result.cost, reason)]) ∧
    (bo.result.success = false → bo.economy = te)

/-- What a successful crystallized dispatch guarantees: zero cost, a tool name
coming from the non-empty crystallized_into_tool field of the matched trace, and full
independence of the registry (the branch never consults it). -/
def crystallized_invariant (store : TraceStore) (registry : List String) (goal : String) : Prop :=
  (_dispatch_crystallized store registry goal).cost = 0 ∧
  (∃ t c toolName, find_trace_with_llm store goal (mkRat 75 100) = some (t, c) ∧
    t.crystallized_into_tool = some toolName ∧ toolName ≠ "" ∧
    (_dispatch_crystallized store registry goal).tool_name = some toolName) ∧
  ∀ registry2 : List String,
    _dispatch_crystallized store registry2 goal = _dispatch_crystallized store registry goal

/-- C5 counterexample: a crystallized dispatch succeeds with tool name is_prime
against an empty registry, refuting "the tool named by crystallized_into_tool
exists in the tool/agent registry at dispatch time". -/
theorem c5_counterexample :
    (_dispatch_crystallized storeC [] "g").success = true ∧
    (_dispatch_crystallized storeC [] "g").cost = 0 ∧
    (_dispatch_crystallized storeC [] "g").tool_name = some "is_prime" ∧
    "is_prime" ∉ ([] : List String) := by
  refine ⟨by decide, by decide, by decide, ?_⟩
  simp

/-- C5 (amended): every successful CRYSTALLIZED dispatch has cost 0.0 and reports
the non-empty crystallized_into_tool of the matched trace as tool_name, but the branch
never consults the registry, so the tool need not exist there. -/
theorem c5_crystallized_amended (store : TraceStore) (registry : List String)
    (goal : String) (h : (_dispatch_crystallized store registry goal).success = true) :
    crystallized_invariant store registry goal := by
  cases hf : find_trace_with_llm store goal (mkRat 75 100) with
  | none =>
    exfalso
    unfold _dispatch_crystallized at h
    rw [hf] at h
    cases h
  | some p =>
    obtain ⟨t, c⟩ := p
    cases hc : t.crystallized_into_tool with
    | none =>
      exfalso
      unfold _dispatch_crystallized at h
      rw [hf] at h
      dsimp only at h
      rw [hc] at h
      cases h
    | some toolName =>
      by_cases he : toolName = ""
      · exfalso
        unfold _dispatch_crystallized at h
        rw [hf] at h
        dsimp only at h
        rw [hc] at h
        dsimp only at h
        rw [if_pos he] at h
        cases h
      · have hd : _dispatch_crystallized store registry goal =
            { success := true, mode := "CRYSTALLIZED", tool_name := some toolName,
              trace := some t, cost := 0 } := by
          unfold _dispatch_crystallized
          rw [hf]
          dsimp only
          rw [hc]
          dsimp only
          rw [if_neg he]
        exact ⟨by rw [hd], ⟨t, c, toolName, hf, hc, he, by rw [hd]⟩, fun _r2 => rfl⟩

theorem c5_crystallized_amended_witness :
    (_dispatch_crystallized storeC [] "g").success = true ∧
    crystallized_invariant storeC [] "g" := by
  have h : (_dispatch_crystallized storeC [] "g").success = true := by decide
  exact ⟨h, c5_crystallized_amended storeC [] "g" h⟩

/-- Common tail of the three paid branches (proof helper): deduct the reported
cost iff the result is successful, propagating a deduct failure. -/
def paid_tail (te : TokenEconomy) (res : DispatchResult) (reason : String) :
    Except String BranchOut :=
  if res.success then
    match deduct te res.cost reason with
    | Except.error e => Except.error e
    | Except.ok te2 => Except.ok { result := res, economy := te2, paid_call := true }
  else
    Except.ok { result := res, economy := te, paid_call := true }

theorem paid_tail_discipline (te : TokenEconomy) (res : DispatchResult) (reason : String) :
    deduct_matches_success te (paid_tail te res reason) := by
  intro bo hbo
  unfold paid_tail at hbo
  cases hs : res.success with
  | true =>
    rw [hs] at hbo
    rw [if_pos rfl] at hbo
    cases hd : deduct te res.cost reason with
    | error e =>
      rw [hd] at hbo
      exact absurd hbo (by simp)
    | ok te2 =>
      rw [hd] at hbo
      injection hbo with h2
      subst h2
      refine ⟨fun _ => ⟨reason, ?_⟩, fun hf => ?_⟩
      · unfold deduct at hd
        split at hd
        · exact absurd hd (by simp)
        · injection hd with h3
          rw [← h3]
      · dsimp at hf
        rw [hs] at hf
        cases hf
  | false =>
    rw [hs] at hbo
    rw [if_neg (by simp)] at hbo
    injection hbo with h2
    subst h2
    refine ⟨fun ht => ?_, fun _ => rfl⟩
    dsimp at ht
    rw [hs] at ht
    cases ht

theorem mixed_deduct_discipline (store : TraceStore) (te : TokenEconomy)
    (maxCost : Rat) (goal : String) (hasTM : Bool) (outcome : SDKOutcome)
    (t : ExecutionTrace) (conf : Rat)
    (hb : check_budget te maxCost = true)
    (hf : find_trace_with_llm store goal (mkRat 75 100) = some (t, conf)) :
    deduct_matches_success te (_dispatch_mixed store te maxCost goal hasTM outcome) := by
  have he : _dispatch_mixed store te maxCost goal hasTM outcome =
      paid_tail te
        { (execute_learner_mode (mixed_few_shot t goal) (store.sigOf goal) hasTM outcome).1 with
          mode := "MIXED", guidance_trace := some t, confidence := some conf }
        ("Mixed: " ++ goal.take 50 ++ "...") := by
    unfold _dispatch_mixed paid_tail
    rw [hf]
    dsimp only
    rw [hb]
    rw [if_neg (by decide : ¬ ((true : Bool) = false))]
  rw [he]
  exact paid_tail_discipline te _ _

theorem orchestrator_deduct_discipline (te : TokenEconomy) (maxCost : Rat)
    (goal : String) (plan : List ExecutionStep) (outcomes : Nat → StepOutcome)
    (hb : check_budget te maxCost = true) :
    deduct_matches_success te (_dispatch_orchestrator te maxCost goal plan outcomes) := by
  have he : _dispatch_orchestrator te maxCost goal plan outcomes =
      paid_tail te
        { success := (orchestrate plan outcomes maxCost).success, mode := "ORCHESTRATOR",
          cost := (orchestrate plan outcomes maxCost).cost_usd,
          steps_completed := some (orchestrate plan outcomes maxCost).steps_completed,
          total_steps := some (orchestrate plan outcomes maxCost).total_steps,
          error := (orchestrate plan outcomes maxCost).error }
        ("Orchestrator: " ++ goal.take 50 ++ "...") := by
    unfold _dispatch_orchestrator paid_tail
    rw [hb]
    rw [if_neg (by decide : ¬ ((true : Bool) = false))]
  rw [he]
  exact paid_tail_discipline te _ _

/-- C2 counterexample: an ORCHESTRATOR dispatch (dispatcher.py lines 505-550)
whose orchestration fails — step 1 completed at cost 0.3 before step 2 raised, so
orchestrate returns success = False — and the deduction at lines 534-539, guarded
by `if result.success`, is skipped: the paid branch ran (paid_call = true) yet the
economy comes back unchanged with an empty spend log, refuting "deduct is called
after the branch ... regardless of whether the paid call itself succeeded or
failed". -/
theorem c2_counterexample :
    _dispatch_orchestrator te1 1 "g" planB outB =
      Except.ok { result := { success := false, mode := "ORCHESTRATOR", cost := 0,
                              steps_completed := some 0, total_steps := some 2,
                              error := some "crash" },
                  economy := te1, paid_call := true } ∧
    te1.spend_log = [] := by
  exact ⟨by with_unfolding_all rfl, rfl⟩

/-- C2 (amended): once the budget check passes, the ORCHESTRATOR branch and the
MIXED branch with a guidance trace call TokenEconomy.deduct with the actual cost
reported for that call only when the result is successful — a failed paid call
deducts nothing; the LEARNER SDK arm never reaches its deduction because the
execute_learner_mode call raises TypeError (unexpected keyword argument
available_agents) right after the budget check; and the reachable cortex
fallback arms deduct the fixed estimates (0.50 LEARNER, 0.25 MIXED)
unconditionally once cortex.learn returns, never an adapter-reported cost. -/
theorem c2_deduct_only_on_success (store : TraceStore) (te : TokenEconomy)
    (maxCost : Rat) (goal : String) (hasTM : Bool) (outcome : SDKOutcome)
    (plan : List ExecutionStep) (outcomes : Nat → StepOutcome)
    (hb : check_budget te maxCost = true) :
    deduct_matches_success te (_dispatch_orchestrator te maxCost goal plan outcomes) ∧
    (∀ t conf, find_trace_with_llm store goal (mkRat 75 100) = some (t, conf) →
      deduct_matches_success te (_dispatch_mixed store te maxCost goal hasTM outcome)) ∧
    _dispatch_learner store te maxCost goal hasTM outcome =
      Except.error "TypeError: execute_learner_mode() got an unexpected keyword argument available_agents" ∧
    (∀ tr : ExecutionTrace, mkRat 1 2 ≤ te.balance →
      _dispatch_learner_fallback te maxCost goal (.learned tr) =
        Except.ok { result := { success := true, mode := "LEARNER", trace := some tr,
                                cost := mkRat 1 2 },
                    economy := { balance := te.balance - mkRat 1 2,
                                 spend_log := te.spend_log ++
                                   [(mkRat 1 2, "Learner: " ++ goal.take 50 ++ "...")] },
                    paid_call := true }) ∧
    (∀ t conf tr, find_trace_with_llm store goal (mkRat 75 100) = some (t, conf) →
      mkRat 1 4 ≤ te.balance →
      _dispatch_mixed_fallback store te maxCost goal (.learned tr) =
        Except.ok { result := { success := true, mode := "MIXED", trace := some tr,
                                guidance_trace := some t, confidence := some conf,
                                cost := mkRat 1 4 },
                    economy := { balance := te.balance - mkRat 1 4,
                                 spend_log := te.spend_log ++
                                   [(mkRat 1 4, "Mixed: " ++ goal.take 50 ++ "...")] },
                    paid_call := true }) := by
  refine ⟨orchestrator_deduct_discipline te maxCost goal plan outcomes hb,
          fun t conf hf =>
            mixed_deduct_discipline store te maxCost goal hasTM outcome t conf hb hf,
          ?_, ?_, ?_⟩
  · unfold _dispatch_learner
    rw [hb]
    rw [if_neg (by decide : ¬ ((true : Bool) = false))]
  · intro tr hd
    unfold _dispatch_learner_fallback
    rw [hb]
    rw [if_neg (by decide : ¬ ((true : Bool) = false))]
    unfold deduct
    rw [if_neg (by rw [sub_neg]; exact not_lt.mpr hd)]
  · intro t conf tr hf hd
    unfold _dispatch_mixed_fallback
    rw [hf]
    dsimp only
    rw [hb]
    rw [if_neg (by decide : ¬ ((true : Bool) = false))]
    unfold deduct
    rw [if_neg (by rw [sub_neg]; exact not_lt.mpr hd)]

theorem c2_deduct_only_on_success_witness :
    check_budget te1 1 = true ∧
    find_trace_with_llm storeW "g" (mkRat 75 100) = some (tA, 1) ∧
    deduct_matches_success te1
      (_dispatch_mixed storeW te1 1 "g" true (.completes [.resultMsg (mkRat 1 10) false])) ∧
    _dispatch_learner storeW te1 1 "g" true (.completes [.resultMsg (mkRat 1 10) false]) =
      Except.error "TypeError: execute_learner_mode() got an unexpected keyword argument available_agents" ∧
    _dispatch_learner_fallback te1 1 "g" (.learned tA) =
      Except.ok { result := { success := true, mode := "LEARNER", trace := some tA,
                              cost := mkRat 1 2 },
                  economy := { balance := te1.balance - mkRat 1 2,
                               spend_log := te1.spend_log ++
                                 [(mkRat 1 2, "Learner: " ++ "g".take 50 ++ "...")] },
                  paid_call := true } := by
  have hb : check_budget te1 1 = true := by decide
  have hf : find_trace_with_llm storeW "g" (mkRat 75 100) = some (tA, 1) := by decide
  have h := c2_deduct_only_on_success storeW te1 1 "g" true
    (.completes [.resultMsg (mkRat 1 10) false]) planA outA hb
  exact ⟨hb, hf, h.2.1 tA 1 hf, h.2.2.1, h.2.2.2.1 tA (by decide)⟩

/-- C9: when the pre-admission budget check fails, each paid branch returns a
structured result with success = false and mode set to the branch that was about
to execute, without starting the paid execution (paid_call = false) and leaving
the economy untouched.  For MIXED with no matching trace the dispatch downgrades
to LEARNER, and the failure is reported with mode LEARNER (the branch actually
executed). -/
theorem c9_budget_gate (store : TraceStore) (te : TokenEconomy) (maxCost : Rat)
    (goal : String) (hasTM : Bool) (outcome : SDKOutcome)
    (plan : List ExecutionStep) (outcomes : Nat → StepOutcome)
    (hb : check_budget te maxCost = false) :
    _dispatch_learner store te maxCost goal hasTM outcome =
      Except.ok { result := { success := false, mode := "LEARNER", error := some "LOW_BATTERY" },
                  economy := te, paid_call := false } ∧
    _dispatch_orchestrator te maxCost goal plan outcomes =
      Except.ok { result := { success := false, mode := "ORCHESTRATOR", error := some "LOW_BATTERY" },
                  economy := te, paid_call := false } ∧
    (∀ t c, find_trace_with_llm store goal (mkRat 75 100) = some (t, c) →
      _dispatch_mixed store te maxCost goal hasTM outcome =
        Except.ok { result := { success := false, mode := "MIXED", error := some "LOW_BATTERY" },
                    economy := te, paid_call := false }) ∧
    (find_trace_with_llm store goal (mkRat 75 100) = none →
      _dispatch_mixed store te maxCost goal hasTM outcome =
        Except.ok { result := { success := false, mode := "LEARNER", error := some "LOW_BATTERY" },
                    economy := te, paid_call := false }) := by
  have hL : _dispatch_learner store te maxCost goal hasTM outcome =
      Except.ok { result := { success := false, mode := "LEARNER", error := some "LOW_BATTERY" },
                  economy := te, paid_call := false } := by
    unfold _dispatch_learner
    rw [hb]
    rw [if_pos (rfl : (false : Bool) = false)]
  refine ⟨hL, ?_, ?_, ?_⟩
  · unfold _dispatch_orchestrator
    rw [hb]
    rw [if_pos (rfl : (false : Bool) = false)]
  · intro t c hf
    unfold _dispatch_mixed
    rw [hf]
    dsimp only
    rw [hb]
    rw [if_pos (rfl : (false : Bool) = false)]
  · intro hf
    unfold _dispatch_mixed
    rw [hf]
    exact hL

theorem c9_budget_gate_witness :
    check_budget teZ 1 = false ∧
    find_trace_with_llm storeW "g" (mkRat 75 100) = some (tA, 1) ∧
    _dispatch_mixed storeW teZ 1 "g" true (.completes []) =
      Except.ok { result := { success := false, mode := "MIXED", error := some "LOW_BATTERY" },
                  economy := teZ, paid_call := false } ∧
    _dispatch_learner storeW teZ 1 "g" true (.completes []) =
      Except.ok { result := { success := false, mode := "LEARNER", error := some "LOW_BATTERY" },
                  economy := teZ, paid_call := false } := by
  have hb : check_budget teZ 1 = false := by decide
  have hf : find_trace_with_llm storeW "g" (mkRat 75 100) = some (tA, 1) := by decide
  have h := c9_budget_gate storeW teZ 1 "g" true (.completes []) planA outA hb
  exact ⟨hb, hf, h.2.2.1 tA 1 hf, h.1⟩

end LLMOS
